import Mathlib

/-!
Shallow embedding of `src/Niftyopenvalues2.py` (class `SimpleStockBot`).

Modelling conventions:
* Prices are rationals (`ℚ`); Python's `round(x, 2)` on floats is modelled as
  decimal round-half-to-even on `ℚ` (`round2`).
* A value that Python renders either as a rounded number or as the string
  `'N/A'` is a `CellVal`.
* The network is an oracle `fetch : String → FetchResult` giving, per candidate
  symbol, the outcome of the HTTP request plus JSON validation
  (lines 91-114 of the source).
* Timestamp → date conversion follows
  `datetime.fromtimestamp(ts, tz=pytz.timezone('Asia/Kolkata')).strftime('%Y-%m-%d')`:
  a fixed +05:30 offset and the standard civil-from-days calendar algorithm.
* Python dicts (insertion ordered) are association lists `List (String × _)`.
-/

/-- A display cell: a numeric value or the `'N/A'` placeholder. -/
inductive CellVal where
  | num (q : ℚ)
  | na
deriving DecidableEq, Repr

/-- Round-half-to-even to an integer (the rounding Python's `round` uses). -/
def roundHalfEven (x : ℚ) : ℤ :=
  let n := Rat.floor x
  let f := x - (n : ℚ)
  if f < 1/2 then n
  else if 1/2 < f then n + 1
  else if n % 2 = 0 then n else n + 1

/-- `round(x, 2)`: round to 2 decimal places. -/
def round2 (x : ℚ) : ℚ :=
  (roundHalfEven (x * 100) : ℚ) / 100

/-- `round(v, 2) if v else 'N/A'` (source lines 138, 146-149): Python
truthiness makes both `None` and `0.0` fall to the `'N/A'` branch. -/
def roundCell : Option ℚ → CellVal
  | none => CellVal.na
  | some v => if v = 0 then CellVal.na else CellVal.num (round2 v)

/-- Civil date (year, month, day) from days since the Unix epoch. -/
def civilFromDays (z0 : ℤ) : ℤ × ℤ × ℤ :=
  let z := z0 + 719468
  let era := Int.fdiv z 146097
  let doe := z - era * 146097
  let yoe := Int.fdiv (doe - Int.fdiv doe 1460 + Int.fdiv doe 36524 - Int.fdiv doe 146096) 365
  let y := yoe + era * 400
  let doy := doe - (365 * yoe + Int.fdiv yoe 4 - Int.fdiv yoe 100)
  let mp := Int.fdiv (5 * doy + 2) 153
  let d := doy - Int.fdiv (153 * mp + 2) 5 + 1
  let m := mp + (if mp < 10 then 3 else -9)
  (y + (if m ≤ 2 then 1 else 0), m, d)

/-- Zero-pad a number to two digits. -/
def pad2 (n : ℤ) : String :=
  if n < 10 then "0" ++ toString n else toString n

/-- Zero-pad a number to four digits. -/
def pad4 (n : ℤ) : String :=
  if n < 10 then "000" ++ toString n
  else if n < 100 then "00" ++ toString n
  else if n < 1000 then "0" ++ toString n
  else toString n

/-- `datetime.fromtimestamp(timestamp, tz=Asia/Kolkata).strftime('%Y-%m-%d')`
(source line 121-123): epoch seconds shifted by +05:30, rendered `YYYY-MM-DD`. -/
def istDate (timestamp : ℤ) : String :=
  let days := Int.fdiv (timestamp + 19800) 86400
  let ymd := civilFromDays days
  pad4 ymd.1 ++ "-" ++ pad2 ymd.2.1 ++ "-" ++ pad2 ymd.2.2

/-- One entry of `dates_data` (source lines 122-128). -/
structure DailyBar where
  date : String
  openVal : Option ℚ
  close : Option ℚ
  high : Option ℚ
  low : Option ℚ
deriving DecidableEq, Repr

/-- The parallel OHLC arrays extracted at source lines 111-114
(`quote_data.get('high', [])` and friends). -/
structure QuoteData where
  highs : List (Option ℚ)
  lows : List (Option ℚ)
  opens : List (Option ℚ)
  closes : List (Option ℚ)
deriving DecidableEq, Repr

/-- The guard at source lines 119-120:
`i < len(closes) and closes[i] is not None and i < len(opens) and opens[i] is not None`. -/
def validIdx (q : QuoteData) (i : ℕ) : Bool :=
  decide (i < q.closes.length) && (q.closes.getD i none).isSome &&
  decide (i < q.opens.length) && (q.opens.getD i none).isSome

/-- Build `dates_data` (source lines 117-128): zip timestamps with the OHLC
arrays, keeping only positions with non-null open and close. -/
def buildBars (timestamps : List ℤ) (q : QuoteData) : List DailyBar :=
  timestamps.enum.filterMap fun p =>
    if validIdx q p.1 then
      some ⟨istDate p.2, q.opens.getD p.1 none, q.closes.getD p.1 none,
            q.highs.getD p.1 none, q.lows.getD p.1 none⟩
    else none

/-- Python's `<` on strings: code-point lexicographic comparison, computed on
the underlying character lists. -/
def strLtB (a b : String) : Bool := decide (a.data < b.data)

/-- Insert a bar into a date-descending list, after any bar of ≥ date. -/
def insertDesc (b : DailyBar) : List DailyBar → List DailyBar
  | [] => [b]
  | c :: cs => if strLtB c.date b.date then b :: c :: cs else c :: insertDesc b cs

/-- `dates_data.sort(key=..., reverse=True)` (source line 131): stable sort by
date, most recent first. -/
def sortDesc (l : List DailyBar) : List DailyBar :=
  l.foldl (fun acc b => insertDesc b acc) []

/-- Value of `today_open_data[index_name]` (source lines 136-140). -/
structure TodayOpenRecord where
  date : String
  openVal : CellVal
  symbol_used : String
deriving DecidableEq, Repr

/-- Value of `yesterday_data[index_name]` (source lines 144-151). -/
structure YesterdayOhlcRecord where
  date : String
  openVal : CellVal
  close : CellVal
  high : CellVal
  low : CellVal
  symbol_used : String
deriving DecidableEq, Repr

/-- Outcome of one candidate-symbol request, as classified by the source:
non-200 status (line 157), exception (line 160), missing chart data (line 97),
missing timestamp/quote (line 104), or a well-formed payload. -/
inductive FetchResult where
  | httpError (code : ℕ)
  | exn
  | noChart
  | missingData
  | ok (timestamps : List ℤ) (quote : QuoteData)
deriving DecidableEq

/-- Record built from `dates_data[0]` (source lines 135-140). -/
def mkTodayRecord (today : DailyBar) (attempt_symbol : String) : TodayOpenRecord :=
  ⟨today.date, roundCell today.openVal, attempt_symbol⟩

/-- Record built from `dates_data[1]` (source lines 143-151). -/
def mkYesterdayRecord (yesterday : DailyBar) (attempt_symbol : String) : YesterdayOhlcRecord :=
  ⟨yesterday.date, roundCell yesterday.openVal, roundCell yesterday.close,
   roundCell yesterday.high, roundCell yesterday.low, attempt_symbol⟩

/-- One iteration of the candidate loop body (source lines 84-162): a record
pair when the fetch succeeds and yields at least 2 valid bars, else `none`. -/
def attemptSymbol (fetch : String → FetchResult) (attempt_symbol : String) :
    Option (TodayOpenRecord × YesterdayOhlcRecord) :=
  match fetch attempt_symbol with
  | FetchResult.ok timestamps quote =>
    match sortDesc (buildBars timestamps quote) with
    | today :: yesterday :: _ =>
      some (mkTodayRecord today attempt_symbol, mkYesterdayRecord yesterday attempt_symbol)
    | _ => none
  | _ => none

/-- The candidate loop (source lines 82-155): try candidates in order, stop at
the first success. -/
def resolveInstrument (fetch : String → FetchResult) :
    List String → Option (TodayOpenRecord × YesterdayOhlcRecord)
  | [] => none
  | s :: rest =>
    match attemptSymbol fetch s with
    | some r => some r
    | none => resolveInstrument fetch rest

/-- The `symbols` dict (source lines 55-60). -/
def symbols : List (String × String) :=
  [("NIFTY 50", "^NSEI"),
   ("NIFTY BANK", "^NSEBANK"),
   ("NIFTY MID SELECT", "NIFTY_MID_SELECT.NS"),
   ("NIFTY FINANCIAL SERVICES", "NIFTY_FIN_SERVICE.NS")]

/-- The `alternative_symbols` dict (source lines 63-70). -/
def alternative_symbols : List (String × List String) :=
  [("NIFTY MID SELECT",
    ["NIFTY_MID_SELECT.NS", "^NSEMDCP50", "NIFTY_MIDCAP_100.NS", "NIFTYMIDCAP150.NS"])]

/-- `symbols_to_try` (source lines 76-80): the alternatives list when one
exists, else the singleton primary symbol. -/
def symbols_to_try (index_name symbol : String) : List String :=
  match alternative_symbols.lookup index_name with
  | some alts => alts
  | none => [symbol]

/-- The per-instrument loop (source lines 75-169) over a list of
`(index_name, symbol)` entries, accumulating the two output maps in order. -/
def fetchEntries (fetch : String → FetchResult) :
    List (String × String) → List (String × TodayOpenRecord) × List (String × YesterdayOhlcRecord)
  | [] => ([], [])
  | (index_name, symbol) :: rest =>
    let tail := fetchEntries fetch rest
    match resolveInstrument fetch (symbols_to_try index_name symbol) with
    | some r => ((index_name, r.1) :: tail.1, (index_name, r.2) :: tail.2)
    | none => tail

/-- `get_simplified_stock_data` (source lines 51-175): returns
`(today_open_data, yesterday_data)`. -/
def get_simplified_stock_data (fetch : String → FetchResult) :
    List (String × TodayOpenRecord) × List (String × YesterdayOhlcRecord) :=
  fetchEntries fetch symbols

/-! ## Report Builder (`format_simplified_message`, source lines 177-232)

`current_time` (source line 183, read from the wall clock inside the function)
is made an explicit parameter of the embedding. Python renders the rounded
float with `str`; numeric rendering is abstracted by `showRat`. The order in
which `', '.join` walks the `missing_today` / `missing_yesterday` sets is
modelled as the declaration order of `all_expected_indices`. -/

/-- Render a rational (stands in for Python's float formatting). -/
def showRat (q : ℚ) : String :=
  if q.den = 1 then toString q.num else toString q.num ++ "/" ++ toString q.den

/-- Render a cell: `values.get(key, 'N/A')` always finds the key, so this is
the number, or the `'N/A'` stored at record construction. -/
def showCell : CellVal → String
  | CellVal.na => "N/A"
  | CellVal.num q => showRat q

/-- The horizontal rule (source lines 198 and 208). -/
def rule_line : String :=
  "â”â”â”â”â”â”â”â”â”â”â”â”â”â”â”â”â”â”â”â”â”â”â”â”â”â”â”â”\n"

/-- `today_date` (source lines 189-192): the first record's date when the map
is non-empty, otherwise the initial `""`. (The `'Today'` default on line 192
is unreachable: every record carries a `'date'` key.) -/
def today_date_of : List (String × TodayOpenRecord) → String
  | [] => ""
  | (_, values) :: _ => values.date

/-- `yesterday_date` (source lines 190-194): first record's date, else `""`. -/
def yesterday_date_of : List (String × YesterdayOhlcRecord) → String
  | [] => ""
  | (_, values) :: _ => values.date

/-- One iteration of the today loop (source lines 200-204). `symbol_used` is
always present in the record, so `symbol_info` is always `" [sym]"`. -/
def today_line (index_name : String) (values : TodayOpenRecord) : String :=
  "\nğŸ“ˆ *" ++ index_name ++ "* [" ++ values.symbol_used ++ "]\n" ++
  "   Open: " ++ showCell values.openVal ++ "\n"

/-- One iteration of the yesterday loop (source lines 210-217). -/
def yesterday_block (index_name : String) (values : YesterdayOhlcRecord) : String :=
  "\nğŸ“‰ *" ++ index_name ++ "* [" ++ values.symbol_used ++ "]\n" ++
  "   Open: " ++ showCell values.openVal ++ "\n" ++
  "   High: " ++ showCell values.high ++ "\n" ++
  "   Low: " ++ showCell values.low ++ "\n" ++
  "   Close: " ++ showCell values.close ++ "\n"

/-- `all_expected_indices` (source line 220). -/
def all_expected_indices : List String :=
  ["NIFTY 50", "NIFTY BANK", "NIFTY MID SELECT", "NIFTY FINANCIAL SERVICES"]

/-- Key membership in one of the output maps. -/
def hasKey {α : Type} (m : List (String × α)) (name : String) : Bool :=
  m.any fun p => p.1 == name

/-- `missing_today = all_expected_indices - set(today_open_data.keys())`
(source line 221), enumerated in the declaration order of the expected set. -/
def missing_today_of (today_open_data : List (String × TodayOpenRecord)) : List String :=
  all_expected_indices.filter fun name => !hasKey today_open_data name

/-- `missing_yesterday` (source line 222). -/
def missing_yesterday_of (yesterday_data : List (String × YesterdayOhlcRecord)) : List String :=
  all_expected_indices.filter fun name => !hasKey yesterday_data name

/-- The warning header of the data-status block (source line 225). -/
def data_status_header : String :=
  "\nâš ï¸ *Data Status*\n"

/-- The data-status block (source lines 224-229): empty string when nothing is
missing, else the warning header plus one line per non-empty missing list. -/
def data_status_section (today_open_data : List (String × TodayOpenRecord))
    (yesterday_data : List (String × YesterdayOhlcRecord)) : String :=
  let missing_today := missing_today_of today_open_data
  let missing_yesterday := missing_yesterday_of yesterday_data
  if missing_today.isEmpty && missing_yesterday.isEmpty then ""
  else
    data_status_header ++
    (if missing_today.isEmpty then ""
     else "Missing today's data: " ++ String.intercalate ", " missing_today ++ "\n") ++
    (if missing_yesterday.isEmpty then ""
     else "Missing yesterday's data: " ++ String.intercalate ", " missing_yesterday ++ "\n")

/-- `format_simplified_message` (source lines 177-232). -/
def format_simplified_message (today_open_data : List (String × TodayOpenRecord))
    (yesterday_data : List (String × YesterdayOhlcRecord)) (current_time : String) : String :=
  if today_open_data.isEmpty && yesterday_data.isEmpty then
    "âŒ Unable to fetch stock data at this time."
  else
    "ğŸ‘‹ Hi Omkar!\n\nğŸ“Š *Simplified Stock Report*\n" ++
    "ğŸ•˜ Retrieved: " ++ current_time ++ "\n\n" ++
    "ğŸŒ… *Today's Opening (" ++ today_date_of today_open_data ++ ")*\n" ++ rule_line ++
    String.join (today_open_data.map fun p => today_line p.1 p.2) ++
    "\nğŸ“Š *Yesterday's OHLC (" ++ yesterday_date_of yesterday_data ++ ")*\n" ++ rule_line ++
    String.join (yesterday_data.map fun p => yesterday_block p.1 p.2) ++
    data_status_section today_open_data yesterday_data ++
    "\nğŸ“± *Stock Bot by Omkar*"

/-! ## Notifier (`send_telegram_message`, source lines 234-292)

Each attempt's observable outcome is an `AttemptOutcome`: an HTTP status code,
or one of the three caught exception classes. The embedding returns the boolean
result, the number of attempts executed, and the list of `time.sleep` durations
(in seconds) issued between attempts. -/

/-- Per-attempt outcome of the POST to the messaging endpoint. -/
inductive AttemptOutcome where
  | status (code : ℕ)
  | connError
  | timeout
  | unexpected
deriving DecidableEq, Repr

/-- The sleep issued after a failed non-final attempt (source lines 260, 269,
278, 287): 2s for a non-200 status, `2 * (attempt + 1)`s for connection or
timeout errors, 3s for an unexpected error. -/
def backoffOf : AttemptOutcome → ℕ → ℕ
  | AttemptOutcome.status _, _ => 2
  | AttemptOutcome.connError, attempt => 2 * (attempt + 1)
  | AttemptOutcome.timeout, attempt => 2 * (attempt + 1)
  | AttemptOutcome.unexpected, _ => 3

/-- The retry loop of `send_telegram_message` (source lines 236-292), indexed
by the number of loop iterations left (`remaining = max_retries - attempt`, so
the source's `attempt < max_retries - 1` test is `0 < remaining - 1`, i.e. the
`0 < rem` test below) and the current attempt index. Returns the boolean
result, the number of attempts executed, and the `time.sleep` durations issued
between attempts. Falling out of the loop is the `return False` at line 292. -/
def sendFrom (outcome : ℕ → AttemptOutcome) : ℕ → ℕ → Bool × ℕ × List ℕ
  | 0, _ => (false, 0, [])
  | rem + 1, attempt =>
    match outcome attempt with
    | AttemptOutcome.status code =>
      if code = 200 then (true, 1, [])
      else if 0 < rem then
        let rest := sendFrom outcome rem (attempt + 1)
        (rest.1, rest.2.1 + 1, 2 :: rest.2.2)
      else (false, 1, [])
    | AttemptOutcome.connError =>
      if 0 < rem then
        let rest := sendFrom outcome rem (attempt + 1)
        (rest.1, rest.2.1 + 1, 2 * (attempt + 1) :: rest.2.2)
      else (false, 1, [])
    | AttemptOutcome.timeout =>
      if 0 < rem then
        let rest := sendFrom outcome rem (attempt + 1)
        (rest.1, rest.2.1 + 1, 2 * (attempt + 1) :: rest.2.2)
      else (false, 1, [])
    | AttemptOutcome.unexpected =>
      if 0 < rem then
        let rest := sendFrom outcome rem (attempt + 1)
        (rest.1, rest.2.1 + 1, 3 :: rest.2.2)
      else (false, 1, [])

/-- `send_telegram_message` at its default `max_retries=3` (source line 234). -/
def send_telegram_message (outcome : ℕ → AttemptOutcome) : Bool × ℕ × List ℕ :=
  sendFrom outcome 3 0

/-! ## Generic helpers -/

/-- Does `needle` start `hay`? -/
def leadMatch : List Char → List Char → Bool
  | [], _ => true
  | _ :: _, [] => false
  | a :: as, b :: bs => a == b && leadMatch as bs

/-- Does `needle` occur contiguously inside `hay`? -/
def subMatch (needle : List Char) : List Char → Bool
  | [] => leadMatch needle []
  | c :: rest => leadMatch needle (c :: rest) || subMatch needle rest

/-! ## Concrete evaluation data -/

/-- Two well-formed daily bars: timestamps `[86400, 0]` pair with
(open, close, high, low) = (100, 110, 101, 99) and (200, 210, 201, 199). -/
def quoteDemo : QuoteData :=
  ⟨[some 101, some 201], [some 99, some 199], [some 100, some 200], [some 110, some 210]⟩

/-- Candidate 1 and 3 raise; candidate 2 returns two valid bars. -/
def fetchDemo1 : String → FetchResult := fun s =>
  if s = "CAND2" then FetchResult.ok [86400, 0] quoteDemo else FetchResult.exn

/-- Agrees with `fetchDemo1` on candidates 1 and 2, differs on candidate 3. -/
def fetchDemo1' : String → FetchResult := fun s =>
  if s = "CAND2" then FetchResult.ok [86400, 0] quoteDemo
  else if s = "CAND3" then FetchResult.ok [0] quoteDemo
  else FetchResult.exn

/-- Only the primary NIFTY 50 symbol succeeds; everything else has no chart. -/
def fetchDemo2 : String → FetchResult := fun s =>
  if s = "^NSEI" then FetchResult.ok [86400, 0] quoteDemo else FetchResult.noChart

/-- Bars whose most recent day has an open of exactly `0.0`. -/
def quoteZero : QuoteData :=
  ⟨[some 3, some 4], [some 1, some 2], [some 0, some 10], [some 5, some 6]⟩

/-- Every symbol yields the `quoteZero` payload. -/
def fetchZeroOpen : String → FetchResult := fun _ =>
  FetchResult.ok [86400, 0] quoteZero

/-- Every send attempt comes back with HTTP status 204 (a 2xx, but not 200). -/
def outcome204 : ℕ → AttemptOutcome := fun _ => AttemptOutcome.status 204

/-- Attempt 1 hits a connection error, later attempts return 200. -/
def outcomeConn : ℕ → AttemptOutcome := fun i =>
  if i = 0 then AttemptOutcome.connError else AttemptOutcome.status 200

/-- Every send attempt times out. -/
def outcomeTimeoutAll : ℕ → AttemptOutcome := fun _ => AttemptOutcome.timeout

/-- A sample today record. -/
def tdemoRec : TodayOpenRecord := ⟨"2024-01-03", CellVal.num 100, "^NSEI"⟩

/-- A sample yesterday record. -/
def ydemoRec : YesterdayOhlcRecord :=
  ⟨"2024-01-02", CellVal.num 10, CellVal.num 11, CellVal.num 12, CellVal.num 9, "^NSEBANK"⟩

theorem lookup_eq_none_of_not_mem {β : Type} (l : List (String × β)) (k : String)
    (h : k ∉ l.map Prod.fst) : l.lookup k = none := by
  induction l with
  | nil => rfl
  | cons p rest ih =>
    simp only [List.map_cons, List.mem_cons, not_or] at h
    simp [List.lookup, beq_eq_false_iff_ne.mpr h.1, ih h.2]

/-! ## Sorting lemmas -/

theorem mem_insertDesc (b x : DailyBar) (l : List DailyBar) :
    x ∈ insertDesc b l ↔ x = b ∨ x ∈ l := by
  induction l with
  | nil => simp [insertDesc]
  | cons c cs ih =>
    by_cases h : strLtB c.date b.date <;> simp [insertDesc, h, ih] <;> tauto

theorem mem_sortDesc (x : DailyBar) (l : List DailyBar) :
    x ∈ sortDesc l ↔ x ∈ l := by
  have key : ∀ (l acc : List DailyBar),
      (x ∈ l.foldl (fun acc b => insertDesc b acc) acc ↔ x ∈ acc ∨ x ∈ l) := by
    intro l
    induction l with
    | nil => simp
    | cons a t ih =>
      intro acc
      rw [List.foldl_cons, ih, mem_insertDesc]
      simp
      tauto
  rw [sortDesc, key]
  simp

theorem length_insertDesc (b : DailyBar) (l : List DailyBar) :
    (insertDesc b l).length = l.length + 1 := by
  induction l with
  | nil => rfl
  | cons c cs ih =>
    by_cases h : strLtB c.date b.date <;> simp [insertDesc, h, ih]

theorem length_sortDesc (l : List DailyBar) : (sortDesc l).length = l.length := by
  have key : ∀ (l acc : List DailyBar),
      (l.foldl (fun acc b => insertDesc b acc) acc).length = acc.length + l.length := by
    intro l
    induction l with
    | nil => simp
    | cons a t ih =>
      intro acc
      rw [List.foldl_cons, ih, length_insertDesc, List.length_cons]
      omega
  rw [sortDesc, key]
  simp

/-! ## Bar-building lemmas -/

theorem mem_buildBars (timestamps : List ℤ) (q : QuoteData) (b : DailyBar)
    (h : b ∈ buildBars timestamps q) :
    ∃ p ∈ timestamps.enum, validIdx q p.1 = true ∧
      b = ⟨istDate p.2, q.opens.getD p.1 none, q.closes.getD p.1 none,
           q.highs.getD p.1 none, q.lows.getD p.1 none⟩ := by
  rw [buildBars, List.mem_filterMap] at h
  obtain ⟨p, hp, hfb⟩ := h
  by_cases hv : validIdx q p.1
  · rw [if_pos hv] at hfb
    exact ⟨p, hp, hv, (Option.some_inj.mp hfb).symm⟩
  · rw [if_neg hv] at hfb
    exact absurd hfb (by simp)

theorem validIdx_isSome (q : QuoteData) (i : ℕ) (h : validIdx q i = true) :
    (q.opens.getD i none).isSome = true ∧ (q.closes.getD i none).isSome = true := by
  simp only [validIdx, Bool.and_eq_true, decide_eq_true_eq] at h
  exact ⟨h.2, h.1.1.2⟩

theorem length_filterMap_eq_countP {α β : Type} (f : α → Option β) (p : α → Bool)
    (hfp : ∀ a, (f a).isSome = p a) : ∀ l : List α, (l.filterMap f).length = l.countP p
  | [] => rfl
  | a :: t => by
    rw [List.filterMap_cons, List.countP_cons, ← hfp a]
    cases hfa : f a with
    | none => simp [length_filterMap_eq_countP f p hfp t]
    | some b => simp [length_filterMap_eq_countP f p hfp t]

theorem length_buildBars (timestamps : List ℤ) (q : QuoteData) :
    (buildBars timestamps q).length = timestamps.enum.countP fun p => validIdx q p.1 := by
  rw [buildBars]
  exact length_filterMap_eq_countP _ _
    (fun a => by cases hv : validIdx q a.1 <;> simp [hv]) _

/-! ## Resolver lemmas -/

theorem attemptSymbol_congr (fetch fetch' : String → FetchResult) (s : String)
    (h : fetch' s = fetch s) : attemptSymbol fetch' s = attemptSymbol fetch s := by
  unfold attemptSymbol
  rw [h]

theorem attemptSymbol_shape (fetch : String → FetchResult) (s : String)
    (t : TodayOpenRecord) (y : YesterdayOhlcRecord)
    (h : attemptSymbol fetch s = some (t, y)) :
    ∃ timestamps quote b0 b1 rest,
      fetch s = FetchResult.ok timestamps quote ∧
      sortDesc (buildBars timestamps quote) = b0 :: b1 :: rest ∧
      t = mkTodayRecord b0 s ∧ y = mkYesterdayRecord b1 s := by
  unfold attemptSymbol at h
  cases hf : fetch s
  case httpError code => simp [hf] at h
  case exn => simp [hf] at h
  case noChart => simp [hf] at h
  case missingData => simp [hf] at h
  case ok timestamps quote =>
    simp only [hf] at h
    cases hb : sortDesc (buildBars timestamps quote) with
    | nil => simp [hb] at h
    | cons b0 rest0 =>
      cases rest0 with
      | nil => simp [hb] at h
      | cons b1 rest =>
        simp only [hb, Option.some_inj, Prod.mk.injEq] at h
        exact ⟨timestamps, quote, b0, b1, rest, rfl, hb, h.1.symm, h.2.symm⟩

theorem attemptSymbol_symbol_used (fetch : String → FetchResult) (s : String)
    (t : TodayOpenRecord) (y : YesterdayOhlcRecord)
    (h : attemptSymbol fetch s = some (t, y)) :
    t.symbol_used = s ∧ y.symbol_used = s := by
  obtain ⟨_, _, _, _, _, _, _, ht, hy⟩ := attemptSymbol_shape fetch s t y h
  rw [ht, hy]
  exact ⟨rfl, rfl⟩

theorem resolveInstrument_skip (fetch : String → FetchResult) (pre cs : List String)
    (hpre : ∀ c ∈ pre, attemptSymbol fetch c = none) :
    resolveInstrument fetch (pre ++ cs) = resolveInstrument fetch cs := by
  induction pre with
  | nil => rfl
  | cons a t ih =>
    have ha : attemptSymbol fetch a = none := hpre a (by simp)
    rw [List.cons_append]
    show (match attemptSymbol fetch a with
      | some r => some r
      | none => resolveInstrument fetch (t ++ cs)) = resolveInstrument fetch cs
    rw [ha, ih fun c hc => hpre c (by simp [hc])]

theorem resolveInstrument_eq_none_iff (fetch : String → FetchResult) (cs : List String) :
    resolveInstrument fetch cs = none ↔ ∀ c ∈ cs, attemptSymbol fetch c = none := by
  induction cs with
  | nil => simp [resolveInstrument]
  | cons s rest ih =>
    cases ha : attemptSymbol fetch s with
    | some r => simp [resolveInstrument, ha]
    | none => simp [resolveInstrument, ha, ih]

theorem resolveInstrument_eq_some (fetch : String → FetchResult) (cs : List String)
    (r : TodayOpenRecord × YesterdayOhlcRecord)
    (h : resolveInstrument fetch cs = some r) :
    ∃ c ∈ cs, attemptSymbol fetch c = some r := by
  induction cs with
  | nil => exact absurd h (by simp [resolveInstrument])
  | cons s rest ih =>
    rw [resolveInstrument] at h
    cases ha : attemptSymbol fetch s with
    | some r' =>
      simp only [ha] at h
      exact ⟨s, by simp, ha.trans h⟩
    | none =>
      simp only [ha] at h
      obtain ⟨c, hc, hcc⟩ := ih h
      exact ⟨c, by simp [hc], hcc⟩

/-! ## Fetch-phase map lemmas -/

theorem fetchEntries_keys (fetch : String → FetchResult) :
    ∀ entries : List (String × String),
      (fetchEntries fetch entries).1.map Prod.fst = (fetchEntries fetch entries).2.map Prod.fst
  | [] => rfl
  | (n0, s0) :: rest => by
    cases hres : resolveInstrument fetch (symbols_to_try n0 s0) with
    | some r => simp [fetchEntries, hres, fetchEntries_keys fetch rest]
    | none => simp [fetchEntries, hres, fetchEntries_keys fetch rest]

theorem fetchEntries_keys_sub (fetch : String → FetchResult) :
    ∀ (entries : List (String × String)) (k : String),
      k ∈ (fetchEntries fetch entries).1.map Prod.fst → k ∈ entries.map Prod.fst
  | [], _, h => by simp [fetchEntries] at h
  | (n0, s0) :: rest, k, h => by
    cases hres : resolveInstrument fetch (symbols_to_try n0 s0) with
    | some r =>
      simp only [fetchEntries, hres, List.map_cons, List.mem_cons] at h
      rcases h with h | h
      · simp [h]
      · simp [fetchEntries_keys_sub fetch rest k (by simpa using h)]
    | none =>
      simp only [fetchEntries, hres] at h
      simp [fetchEntries_keys_sub fetch rest k (by simpa using h)]

theorem lookup_fetchEntries (fetch : String → FetchResult) (entries : List (String × String))
    (name sym : String) (hnd : (entries.map Prod.fst).Nodup) (hmem : (name, sym) ∈ entries) :
    (fetchEntries fetch entries).1.lookup name =
      (resolveInstrument fetch (symbols_to_try name sym)).map Prod.fst ∧
    (fetchEntries fetch entries).2.lookup name =
      (resolveInstrument fetch (symbols_to_try name sym)).map Prod.snd := by
  induction entries with
  | nil => simp at hmem
  | cons e rest ih =>
    obtain ⟨n0, s0⟩ := e
    have hcons : n0 ∉ List.map Prod.fst rest ∧ (List.map Prod.fst rest).Nodup := by
      rw [List.map_cons, List.nodup_cons] at hnd
      exact hnd
    rcases List.mem_cons.mp hmem with heq | hrest
    · injection heq with hn hs
      subst hn
      subst hs
      cases hres : resolveInstrument fetch (symbols_to_try name sym) with
      | some r =>
        constructor <;> simp [fetchEntries, hres, List.lookup]
      | none =>
        have hk1 : name ∉ (fetchEntries fetch rest).1.map Prod.fst :=
          fun hc => hcons.1 (fetchEntries_keys_sub fetch rest name hc)
        have hk2 : name ∉ (fetchEntries fetch rest).2.map Prod.fst := by
          rw [← fetchEntries_keys]
          exact hk1
        simp [fetchEntries, hres, lookup_eq_none_of_not_mem _ _ hk1,
          lookup_eq_none_of_not_mem _ _ hk2]
    · have hneq : (name == n0) = false :=
        beq_eq_false_iff_ne.mpr fun hcontra =>
          hcons.1 (by rw [← hcontra]; exact List.mem_map_of_mem Prod.fst hrest)
      have hih := ih hcons.2 hrest
      cases hres : resolveInstrument fetch (symbols_to_try n0 s0) with
      | some r =>
        constructor <;> simp [fetchEntries, hres, List.lookup, hneq, hih.1, hih.2]
      | none =>
        simpa [fetchEntries, hres] using hih

/-! ## Notifier lemmas -/

theorem sendFrom_hit (outcome : ℕ → AttemptOutcome) (rem attempt : ℕ)
    (hs : outcome attempt = AttemptOutcome.status 200) :
    sendFrom outcome (rem + 1) attempt = (true, 1, []) := by
  simp [sendFrom, hs]

theorem sendFrom_miss_step (outcome : ℕ → AttemptOutcome) (rem attempt : ℕ) (hrem : 0 < rem)
    (hf : outcome attempt ≠ AttemptOutcome.status 200) :
    sendFrom outcome (rem + 1) attempt =
      ((sendFrom outcome rem (attempt + 1)).1,
       (sendFrom outcome rem (attempt + 1)).2.1 + 1,
       backoffOf (outcome attempt) attempt :: (sendFrom outcome rem (attempt + 1)).2.2) := by
  cases ho : outcome attempt with
  | status code =>
    have hcode : code ≠ 200 := fun hc => hf (by rw [ho, hc])
    simp [sendFrom, ho, hcode, hrem, backoffOf]
  | connError => simp [sendFrom, ho, hrem, backoffOf]
  | timeout => simp [sendFrom, ho, hrem, backoffOf]
  | unexpected => simp [sendFrom, ho, hrem, backoffOf]

theorem sendFrom_miss_last (outcome : ℕ → AttemptOutcome) (attempt : ℕ)
    (hf : outcome attempt ≠ AttemptOutcome.status 200) :
    sendFrom outcome 1 attempt = (false, 1, []) := by
  cases ho : outcome attempt with
  | status code =>
    have hcode : code ≠ 200 := fun hc => hf (by rw [ho, hc])
    simp [sendFrom, ho, hcode]
  | connError => simp [sendFrom, ho]
  | timeout => simp [sendFrom, ho]
  | unexpected => simp [sendFrom, ho]

theorem resolveInstrument_symbol_used_eq (fetch : String → FetchResult) (cs : List String)
    (r : TodayOpenRecord × YesterdayOhlcRecord)
    (h : resolveInstrument fetch cs = some r) :
    r.1.symbol_used = r.2.symbol_used := by
  obtain ⟨c, _, hcc⟩ := resolveInstrument_eq_some fetch cs r h
  have hsym := attemptSymbol_symbol_used fetch c r.1 r.2 hcc
  rw [hsym.1, hsym.2]

theorem fetchEntries_lookup_pair (fetch : String → FetchResult) :
    ∀ (entries : List (String × String)) (name : String) (tr : TodayOpenRecord),
      (fetchEntries fetch entries).1.lookup name = some tr →
      ∃ yr, (fetchEntries fetch entries).2.lookup name = some yr ∧
        tr.symbol_used = yr.symbol_used
  | [], name, tr, h => by simp [fetchEntries] at h
  | (n0, s0) :: rest, name, tr, h => by
    cases hres : resolveInstrument fetch (symbols_to_try n0 s0) with
    | some r =>
      simp only [fetchEntries, hres] at h ⊢
      by_cases hb : (name == n0) = true
      · simp only [List.lookup, hb, Option.some_inj] at h ⊢
        exact ⟨r.2, rfl, by rw [← h]; exact resolveInstrument_symbol_used_eq fetch _ r hres⟩
      · rw [Bool.not_eq_true] at hb
        simp only [List.lookup, hb] at h ⊢
        exact fetchEntries_lookup_pair fetch rest name tr h
    | none =>
      simp only [fetchEntries, hres] at h ⊢
      exact fetchEntries_lookup_pair fetch rest name tr h

theorem instrument_presence_core (fetch : String → FetchResult) (name sym : String)
    (hmem : (name, sym) ∈ symbols) :
    ((get_simplified_stock_data fetch).1.lookup name =
      (resolveInstrument fetch (symbols_to_try name sym)).map Prod.fst) ∧
    ((get_simplified_stock_data fetch).2.lookup name =
      (resolveInstrument fetch (symbols_to_try name sym)).map Prod.snd) ∧
    ((∀ c ∈ symbols_to_try name sym, attemptSymbol fetch c = none) →
      (get_simplified_stock_data fetch).1.lookup name = none ∧
      (get_simplified_stock_data fetch).2.lookup name = none) ∧
    (∀ r : TodayOpenRecord, (get_simplified_stock_data fetch).1.lookup name = some r →
      ∃ c ∈ symbols_to_try name sym, ∃ timestamps quote,
        fetch c = FetchResult.ok timestamps quote ∧
        2 ≤ (sortDesc (buildBars timestamps quote)).length) := by
  have hnd : (symbols.map Prod.fst).Nodup := by decide
  have hlook := lookup_fetchEntries fetch symbols name sym hnd hmem
  rw [get_simplified_stock_data]
  refine ⟨hlook.1, hlook.2, ?_, ?_⟩
  · intro hall
    have hnone : resolveInstrument fetch (symbols_to_try name sym) = none :=
      (resolveInstrument_eq_none_iff fetch _).mpr hall
    constructor
    · rw [hlook.1, hnone]; rfl
    · rw [hlook.2, hnone]; rfl
  · intro r hr
    rw [hlook.1] at hr
    obtain ⟨p, hp, _⟩ := Option.map_eq_some'.mp hr
    obtain ⟨c, hc, hcc⟩ := resolveInstrument_eq_some fetch _ p hp
    obtain ⟨ts, q, b0, b1, rest, hok, hsort, _, _⟩ :=
      attemptSymbol_shape fetch c p.1 p.2 hcc
    exact ⟨c, hc, ts, q, hok, by rw [hsort]; simp⟩

/-- C1: for every instrument and ordered candidate list, the resolver tries
candidates strictly in declared order and stops at the first candidate whose
fetch yields at least 2 valid bars; the records produced carry `symbol_used`
equal to exactly that candidate, and later candidates are never attempted (the
result is unchanged under any oracle agreeing on the earlier candidates and
the successful one). -/
theorem resolver_first_success (fetch fetch' : String → FetchResult)
    (pre post : List String) (s : String) (t : TodayOpenRecord) (y : YesterdayOhlcRecord)
    (hpre : ∀ c ∈ pre, attemptSymbol fetch c = none)
    (hs : attemptSymbol fetch s = some (t, y))
    (hagree : ∀ c ∈ pre, fetch' c = fetch c)
    (hagreeS : fetch' s = fetch s) :
    resolveInstrument fetch (pre ++ s :: post) = some (t, y) ∧
    t.symbol_used = s ∧ y.symbol_used = s ∧
    resolveInstrument fetch' (pre ++ s :: post) = some (t, y) := by
  have hsym := attemptSymbol_symbol_used fetch s t y hs
  have hs' : attemptSymbol fetch' s = some (t, y) := by
    rw [attemptSymbol_congr fetch fetch' s hagreeS, hs]
  have hpre' : ∀ c ∈ pre, attemptSymbol fetch' c = none := fun c hc => by
    rw [attemptSymbol_congr fetch fetch' c (hagree c hc), hpre c hc]
  refine ⟨?_, hsym.1, hsym.2, ?_⟩
  · rw [resolveInstrument_skip fetch pre (s :: post) hpre]
    simp [resolveInstrument, hs]
  · rw [resolveInstrument_skip fetch' pre (s :: post) hpre']
    simp [resolveInstrument, hs']

/-- Witness for C1: candidate 1 fails, candidate 2 succeeds with two bars, the
result reports `symbol_used = "CAND2"`, and an oracle that differs on the
later candidate 3 gives the identical result. -/
theorem resolver_first_success_witness :
    resolveInstrument fetchDemo1 (["CAND1"] ++ "CAND2" :: ["CAND3"]) =
      some (⟨"1970-01-02", CellVal.num (round2 100), "CAND2"⟩,
            ⟨"1970-01-01", CellVal.num (round2 200), CellVal.num (round2 210),
             CellVal.num (round2 201), CellVal.num (round2 199), "CAND2"⟩) ∧
    (⟨"1970-01-02", CellVal.num (round2 100), "CAND2"⟩ : TodayOpenRecord).symbol_used =
      "CAND2" ∧
    (⟨"1970-01-01", CellVal.num (round2 200), CellVal.num (round2 210),
      CellVal.num (round2 201), CellVal.num (round2 199),
      "CAND2"⟩ : YesterdayOhlcRecord).symbol_used = "CAND2" ∧
    resolveInstrument fetchDemo1' (["CAND1"] ++ "CAND2" :: ["CAND3"]) =
      some (⟨"1970-01-02", CellVal.num (round2 100), "CAND2"⟩,
            ⟨"1970-01-01", CellVal.num (round2 200), CellVal.num (round2 210),
             CellVal.num (round2 201), CellVal.num (round2 199), "CAND2"⟩) :=
  resolver_first_success fetchDemo1 fetchDemo1' ["CAND1"] ["CAND3"] "CAND2"
    ⟨"1970-01-02", CellVal.num (round2 100), "CAND2"⟩
    ⟨"1970-01-01", CellVal.num (round2 200), CellVal.num (round2 210),
     CellVal.num (round2 201), CellVal.num (round2 199), "CAND2"⟩
    (by decide) (by rfl) (by decide) (by decide)

/-- C2: for every instrument, a record is present in an output map only if
some candidate's fetch returned a payload with at least 2 valid bars; if every
candidate fails the instrument is absent from both maps; and each instrument's
entries are exactly determined by its own candidate resolution, independent of
the other instruments (so per-instrument exhaustion is never fatal to the
run). -/
theorem instrument_presence (fetch : String → FetchResult) (name : String)
    (h : name ∈ all_expected_indices) :
    ∃ sym, (name, sym) ∈ symbols ∧
      ((get_simplified_stock_data fetch).1.lookup name =
        (resolveInstrument fetch (symbols_to_try name sym)).map Prod.fst) ∧
      ((get_simplified_stock_data fetch).2.lookup name =
        (resolveInstrument fetch (symbols_to_try name sym)).map Prod.snd) ∧
      ((∀ c ∈ symbols_to_try name sym, attemptSymbol fetch c = none) →
        (get_simplified_stock_data fetch).1.lookup name = none ∧
        (get_simplified_stock_data fetch).2.lookup name = none) ∧
      (∀ r : TodayOpenRecord, (get_simplified_stock_data fetch).1.lookup name = some r →
        ∃ c ∈ symbols_to_try name sym, ∃ timestamps quote,
          fetch c = FetchResult.ok timestamps quote ∧
          2 ≤ (sortDesc (buildBars timestamps quote)).length) := by
  simp only [all_expected_indices, List.mem_cons, List.not_mem_nil, or_false] at h
  rcases h with h | h | h | h <;> subst h
  · exact ⟨"^NSEI", by decide, instrument_presence_core fetch _ _ (by decide)⟩
  · exact ⟨"^NSEBANK", by decide, instrument_presence_core fetch _ _ (by decide)⟩
  · exact ⟨"NIFTY_MID_SELECT.NS", by decide, instrument_presence_core fetch _ _ (by decide)⟩
  · exact ⟨"NIFTY_FIN_SERVICE.NS", by decide, instrument_presence_core fetch _ _ (by decide)⟩

/-- Witness for C2: with an oracle where only `^NSEI` succeeds, the NIFTY 50
lookup is exactly its own resolution. -/
theorem instrument_presence_witness :
    ∃ sym, ("NIFTY 50", sym) ∈ symbols ∧
      (get_simplified_stock_data fetchDemo2).1.lookup "NIFTY 50" =
        (resolveInstrument fetchDemo2 (symbols_to_try "NIFTY 50" sym)).map Prod.fst := by
  obtain ⟨sym, hsymm, h1, _, _, _⟩ := instrument_presence fetchDemo2 "NIFTY 50" (by decide)
  exact ⟨sym, hsymm, h1⟩

/-- C10: the today-open map and the yesterday-OHLC map always have the same
key sequence, and a today record for an instrument always comes with a
yesterday record produced in the same successful candidate attempt (equal
`symbol_used`). -/
theorem maps_same_keys (fetch : String → FetchResult) :
    ((get_simplified_stock_data fetch).1.map Prod.fst =
      (get_simplified_stock_data fetch).2.map Prod.fst) ∧
    ∀ (name : String) (tr : TodayOpenRecord),
      (get_simplified_stock_data fetch).1.lookup name = some tr →
      ∃ yr, (get_simplified_stock_data fetch).2.lookup name = some yr ∧
        tr.symbol_used = yr.symbol_used :=
  ⟨fetchEntries_keys fetch symbols,
   fun name tr h => fetchEntries_lookup_pair fetch symbols name tr h⟩

/-- Witness for C10: the NIFTY 50 today record from `fetchDemo2` has a paired
yesterday record with the same `symbol_used`. -/
theorem maps_same_keys_witness :
    ∃ yr, (get_simplified_stock_data fetchDemo2).2.lookup "NIFTY 50" = some yr ∧
      (⟨"1970-01-02", CellVal.num (round2 100), "^NSEI"⟩ : TodayOpenRecord).symbol_used =
        yr.symbol_used :=
  (maps_same_keys fetchDemo2).2 "NIFTY 50"
    ⟨"1970-01-02", CellVal.num (round2 100), "^NSEI"⟩ (by rfl)

/-- C4: every bar in the date-sorted sequence has a non-null open and a
non-null close; a timestamp position whose open or close is null is not a
valid position, and the number of bars equals the number of valid positions,
so such a position contributes no bar at all. -/
theorem bars_never_null (timestamps : List ℤ) (quote : QuoteData) :
    (∀ b ∈ sortDesc (buildBars timestamps quote), b.openVal ≠ none ∧ b.close ≠ none) ∧
    (sortDesc (buildBars timestamps quote)).length =
      timestamps.enum.countP (fun p => validIdx quote p.1) ∧
    (∀ i : ℕ, quote.opens.getD i none = none ∨ quote.closes.getD i none = none →
      validIdx quote i = false) := by
  refine ⟨?_, ?_, ?_⟩
  · intro b hb
    rw [mem_sortDesc] at hb
    obtain ⟨p, _, hv, hbeq⟩ := mem_buildBars timestamps quote b hb
    obtain ⟨ho, hc⟩ := validIdx_isSome quote p.1 hv
    have ho' : quote.opens.getD p.1 none ≠ none := fun hn => by
      rw [hn] at ho
      exact absurd ho (by decide)
    have hc' : quote.closes.getD p.1 none ≠ none := fun hn => by
      rw [hn] at hc
      exact absurd hc (by decide)
    subst hbeq
    exact ⟨ho', hc'⟩
  · rw [length_sortDesc, length_buildBars]
  · intro i h
    rcases h with h | h
    · have hx : (quote.opens.getD i none).isSome = false := by rw [h]; rfl
      unfold validIdx
      rw [hx, Bool.and_false]
    · have hx : (quote.closes.getD i none).isSome = false := by rw [h]; rfl
      unfold validIdx
      rw [hx, Bool.and_false, Bool.false_and, Bool.false_and]

/-- Witness for C4: the single bar built from `quoteDemo` at timestamp 0 has
non-null open and close. -/
theorem bars_never_null_witness :
    (⟨"1970-01-01", some 100, some 110, some 101, some 99⟩ : DailyBar).openVal ≠ none ∧
    (⟨"1970-01-01", some 100, some 110, some 101, some 99⟩ : DailyBar).close ≠ none :=
  (bars_never_null [0] quoteDemo).1
    ⟨"1970-01-01", some 100, some 110, some 101, some 99⟩ (by decide)

/-- C5 (amended): in a successful attempt, each record field is the source
bar's field passed through `roundCell`: a present non-zero value is rounded to
2 decimal places at record construction, while an absent value — or a present
value equal to `0.0`, by Python truthiness — becomes the `'N/A'` placeholder.
The bars themselves carry unrounded values. -/
theorem record_rounding (fetch : String → FetchResult) (s : String)
    (t : TodayOpenRecord) (y : YesterdayOhlcRecord)
    (h : attemptSymbol fetch s = some (t, y)) :
    ∃ timestamps quote b0 b1 rest,
      fetch s = FetchResult.ok timestamps quote ∧
      sortDesc (buildBars timestamps quote) = b0 :: b1 :: rest ∧
      t.date = b0.date ∧ t.openVal = roundCell b0.openVal ∧
      y.date = b1.date ∧ y.openVal = roundCell b1.openVal ∧
      y.close = roundCell b1.close ∧ y.high = roundCell b1.high ∧
      y.low = roundCell b1.low ∧
      (∀ v : ℚ, v ≠ 0 → roundCell (some v) = CellVal.num (round2 v)) ∧
      roundCell (some 0) = CellVal.na ∧ roundCell none = CellVal.na := by
  obtain ⟨ts, q, b0, b1, rest, hok, hsort, ht, hy⟩ := attemptSymbol_shape fetch s t y h
  subst ht
  subst hy
  refine ⟨ts, q, b0, b1, rest, hok, hsort, rfl, rfl, rfl, rfl, rfl, rfl, rfl, ?_, ?_, rfl⟩
  · intro v hv
    simp [roundCell, hv]
  · simp [roundCell]

/-- Counterexample for C5 as stated: with `fetchZeroOpen` the most recent bar
has `open = some 0` — a present value — yet the today record stores the
`'N/A'` placeholder instead of `round2 0`. -/
theorem record_rounding_cex :
    attemptSymbol fetchZeroOpen "^NSEI" =
      some (⟨"1970-01-02", CellVal.na, "^NSEI"⟩,
            ⟨"1970-01-01", CellVal.num (round2 10), CellVal.num (round2 6),
             CellVal.num (round2 4), CellVal.num (round2 2), "^NSEI"⟩) ∧
    sortDesc (buildBars [86400, 0] quoteZero) =
      [⟨"1970-01-02", some 0, some 5, some 3, some 1⟩,
       ⟨"1970-01-01", some 10, some 6, some 4, some 2⟩] ∧
    ∀ q : ℚ, CellVal.na ≠ CellVal.num q :=
  ⟨by rfl, by rfl, fun _ h => CellVal.noConfusion h⟩

theorem sendFrom30_miss (outcome : ℕ → AttemptOutcome)
    (h0 : outcome 0 ≠ AttemptOutcome.status 200) :
    sendFrom outcome 3 0 =
      ((sendFrom outcome 2 1).1, (sendFrom outcome 2 1).2.1 + 1,
       backoffOf (outcome 0) 0 :: (sendFrom outcome 2 1).2.2) :=
  sendFrom_miss_step outcome 2 0 (by omega) h0

theorem sendFrom21_hit (outcome : ℕ → AttemptOutcome)
    (h1 : outcome 1 = AttemptOutcome.status 200) :
    sendFrom outcome 2 1 = (true, 1, []) :=
  sendFrom_hit outcome 1 1 h1

theorem sendFrom21_miss (outcome : ℕ → AttemptOutcome)
    (h1 : outcome 1 ≠ AttemptOutcome.status 200) :
    sendFrom outcome 2 1 =
      ((sendFrom outcome 1 2).1, (sendFrom outcome 1 2).2.1 + 1,
       backoffOf (outcome 1) 1 :: (sendFrom outcome 1 2).2.2) :=
  sendFrom_miss_step outcome 1 1 (by omega) h1

theorem sendFrom12_hit (outcome : ℕ → AttemptOutcome)
    (h2 : outcome 2 = AttemptOutcome.status 200) :
    sendFrom outcome 1 2 = (true, 1, []) :=
  sendFrom_hit outcome 0 2 h2

theorem sendFrom12_miss (outcome : ℕ → AttemptOutcome)
    (h2 : outcome 2 ≠ AttemptOutcome.status 200) :
    sendFrom outcome 1 2 = (false, 1, []) :=
  sendFrom_miss_last outcome 2 h2

theorem sendThreeCases (outcome : ℕ → AttemptOutcome) :
    (outcome 0 = AttemptOutcome.status 200 →
      send_telegram_message outcome = (true, 1, [])) ∧
    (outcome 0 ≠ AttemptOutcome.status 200 → outcome 1 = AttemptOutcome.status 200 →
      send_telegram_message outcome = (true, 2, [backoffOf (outcome 0) 0])) ∧
    (outcome 0 ≠ AttemptOutcome.status 200 → outcome 1 ≠ AttemptOutcome.status 200 →
      outcome 2 = AttemptOutcome.status 200 →
      send_telegram_message outcome =
        (true, 3, [backoffOf (outcome 0) 0, backoffOf (outcome 1) 1])) ∧
    (outcome 0 ≠ AttemptOutcome.status 200 → outcome 1 ≠ AttemptOutcome.status 200 →
      outcome 2 ≠ AttemptOutcome.status 200 →
      send_telegram_message outcome =
        (false, 3, [backoffOf (outcome 0) 0, backoffOf (outcome 1) 1])) := by
  refine ⟨?_, ?_, ?_, ?_⟩
  · intro h0
    rw [send_telegram_message]
    exact sendFrom_hit outcome 2 0 h0
  · intro h0 h1
    rw [send_telegram_message, sendFrom30_miss outcome h0, sendFrom21_hit outcome h1]
  · intro h0 h1 h2
    rw [send_telegram_message, sendFrom30_miss outcome h0, sendFrom21_miss outcome h1,
      sendFrom12_hit outcome h2]
  · intro h0 h1 h2
    rw [send_telegram_message, sendFrom30_miss outcome h0, sendFrom21_miss outcome h1,
      sendFrom12_miss outcome h2]

/-- C3 (amended): an attempt succeeds exactly when its HTTP status is 200 (the
source tests `status_code == 200`, so 2xx codes other than 200 count as
failures). Then: at most 3 attempts are made; the send returns success as soon
as an attempt returns status 200, after exactly that many attempts; and it
returns failure only after all 3 attempts have failed. No outcome escapes as
an exception: every branch of the total function yields a boolean result. -/
theorem send_retry_behavior (outcome : ℕ → AttemptOutcome) :
    (send_telegram_message outcome).2.1 ≤ 3 ∧
    (∀ i, i < 3 → outcome i = AttemptOutcome.status 200 →
      (∀ j, j < i → outcome j ≠ AttemptOutcome.status 200) →
      (send_telegram_message outcome).1 = true ∧
      (send_telegram_message outcome).2.1 = i + 1) ∧
    ((∀ i, i < 3 → outcome i ≠ AttemptOutcome.status 200) →
      (send_telegram_message outcome).1 = false ∧
      (send_telegram_message outcome).2.1 = 3) := by
  obtain ⟨c1, c2, c3, c4⟩ := sendThreeCases outcome
  refine ⟨?_, ?_, ?_⟩
  · by_cases h0 : outcome 0 = AttemptOutcome.status 200
    · simp [c1 h0]
    · by_cases h1 : outcome 1 = AttemptOutcome.status 200
      · simp [c2 h0 h1]
      · by_cases h2 : outcome 2 = AttemptOutcome.status 200
        · simp [c3 h0 h1 h2]
        · simp [c4 h0 h1 h2]
  · intro i hi hs hprev
    interval_cases i
    · constructor <;> simp [c1 hs]
    · have h0 := hprev 0 (by omega)
      constructor <;> simp [c2 h0 hs]
    · have h0 := hprev 0 (by omega)
      have h1 := hprev 1 (by omega)
      constructor <;> simp [c3 h0 h1 hs]
  · intro hall
    have h0 := hall 0 (by omega)
    have h1 := hall 1 (by omega)
    have h2 := hall 2 (by omega)
    constructor <;> simp [c4 h0 h1 h2]

/-- Counterexample for C3 as stated: every attempt returns HTTP 204 — a 2xx
status, hence a "success" in the claim's taxonomy — yet the send retries all
3 attempts and returns failure, because the code tests `status_code == 200`. -/
theorem send_retry_cex :
    send_telegram_message outcome204 = (false, 3, [2, 2]) ∧
    outcome204 0 = AttemptOutcome.status 204 ∧ 200 ≤ 204 ∧ 204 < 300 := by
  refine ⟨by decide, by decide, by decide, by decide⟩

/-- Witness for C3: a connection error on attempt 1 and status 200 on attempt
2 yields success after exactly 2 attempts. -/
theorem send_retry_witness :
    (send_telegram_message outcomeConn).1 = true ∧
    (send_telegram_message outcomeConn).2.1 = 2 :=
  (send_retry_behavior outcomeConn).2.1 1 (by omega) (by decide)
    (fun j hj => by interval_cases j; decide)

/-- C7 (amended: the generic-HTTP failure class is a non-200 status, not a
non-2xx status): in an all-failing send, the waits between attempts are
exactly the per-class backoffs of the two non-final attempts — 2s after a
status failure, `2 * (attempt + 1)`s (2s, then 4s) after a connection error or
timeout, 3s after an unexpected error — and no wait follows the final attempt
(one fewer wait than attempts). -/
theorem backoff_sequence (outcome : ℕ → AttemptOutcome)
    (hfail : ∀ i, i < 3 → outcome i ≠ AttemptOutcome.status 200) :
    (send_telegram_message outcome).2.2 =
      [backoffOf (outcome 0) 0, backoffOf (outcome 1) 1] ∧
    (send_telegram_message outcome).2.2.length =
      (send_telegram_message outcome).2.1 - 1 ∧
    (∀ c : ℕ, backoffOf (AttemptOutcome.status c) 0 = 2 ∧
      backoffOf (AttemptOutcome.status c) 1 = 2) ∧
    (∀ attempt : ℕ, backoffOf AttemptOutcome.connError attempt = 2 * (attempt + 1) ∧
      backoffOf AttemptOutcome.timeout attempt = 2 * (attempt + 1)) ∧
    (∀ attempt : ℕ, backoffOf AttemptOutcome.unexpected attempt = 3) := by
  obtain ⟨_, _, _, c4⟩ := sendThreeCases outcome
  have hv := c4 (hfail 0 (by omega)) (hfail 1 (by omega)) (hfail 2 (by omega))
  exact ⟨by rw [hv], by rw [hv]; rfl, fun c => ⟨rfl, rfl⟩, fun a => ⟨rfl, rfl⟩, fun a => rfl⟩

/-- Counterexample for C7 as stated: a send in which every attempt fails (the
result is failure after 3 attempts) whose failed attempts carry HTTP 204 — a
2xx status, which belongs to none of the claim's failure classes ("non-2xx
HTTP status, connection error, timeout, unexpected") — while the code still
waits the generic 2s after each of them. -/
theorem backoff_sequence_cex :
    (send_telegram_message outcome204).1 = false ∧
    (send_telegram_message outcome204).2.1 = 3 ∧
    (send_telegram_message outcome204).2.2 = [2, 2] ∧
    outcome204 1 = AttemptOutcome.status 204 ∧ 200 ≤ 204 ∧ 204 < 300 := by
  refine ⟨by decide, by decide, by decide, by decide, by decide, by decide⟩

/-- Witness for C7: all three attempts time out; the waits are 2s then 4s. -/
theorem backoff_sequence_witness :
    (send_telegram_message outcomeTimeoutAll).2.2 = [2, 4] := by
  have h := (backoff_sequence outcomeTimeoutAll (fun i _ => by simp [outcomeTimeoutAll])).1
  simpa [outcomeTimeoutAll, backoffOf] using h

/-- Witness for C5: applying the rounding theorem to the successful NIFTY 50
attempt of `fetchDemo2`. -/
theorem record_rounding_witness :
    ∃ b0 : DailyBar,
      (⟨"1970-01-02", CellVal.num (round2 100), "^NSEI"⟩ : TodayOpenRecord).openVal =
        roundCell b0.openVal := by
  obtain ⟨ts, q, b0, b1, rest, hok, hsort, hd, hopen, _⟩ :=
    record_rounding fetchDemo2 "^NSEI"
      ⟨"1970-01-02", CellVal.num (round2 100), "^NSEI"⟩
      ⟨"1970-01-01", CellVal.num (round2 200), CellVal.num (round2 210),
       CellVal.num (round2 201), CellVal.num (round2 199), "^NSEI"⟩ (by rfl)
  exact ⟨b0, hopen⟩

/-- C6: the Report Builder is a deterministic function of its inputs — two
calls with equal input maps and equal generation timestamps produce identical
text (in the embedding the wall-clock string read at source line 183 is the
explicit `current_time` parameter). -/
theorem format_deterministic (t₁ t₂ : List (String × TodayOpenRecord))
    (y₁ y₂ : List (String × YesterdayOhlcRecord)) (n₁ n₂ : String)
    (ht : t₁ = t₂) (hy : y₁ = y₂) (hn : n₁ = n₂) :
    format_simplified_message t₁ y₁ n₁ = format_simplified_message t₂ y₂ n₂ := by
  rw [ht, hy, hn]

/-- Witness for C6 at concrete maps and timestamp. -/
theorem format_deterministic_witness :
    format_simplified_message [("NIFTY 50", tdemoRec)] [("NIFTY 50", ydemoRec)] "t0" =
      format_simplified_message [("NIFTY 50", tdemoRec)] [("NIFTY 50", ydemoRec)] "t0" :=
  format_deterministic _ _ _ _ _ _ rfl rfl rfl

theorem missing_today_nil_iff (t : List (String × TodayOpenRecord)) :
    missing_today_of t = [] ↔ ∀ name ∈ all_expected_indices, hasKey t name = true := by
  simp [missing_today_of, List.filter_eq_nil_iff]

theorem missing_yesterday_nil_iff (y : List (String × YesterdayOhlcRecord)) :
    missing_yesterday_of y = [] ↔ ∀ name ∈ all_expected_indices, hasKey y name = true := by
  simp [missing_yesterday_of, List.filter_eq_nil_iff]

theorem maps_nonempty_cond (t : List (String × TodayOpenRecord))
    (y : List (String × YesterdayOhlcRecord)) (h : t ≠ [] ∨ y ≠ []) :
    (t.isEmpty && y.isEmpty) = false := by
  rcases h with h | h
  · have : t.isEmpty = false := by
      rw [Bool.eq_false_iff]
      intro hc
      exact h (List.isEmpty_iff.mp hc)
    rw [this, Bool.false_and]
  · have : y.isEmpty = false := by
      rw [Bool.eq_false_iff]
      intro hc
      exact h (List.isEmpty_iff.mp hc)
    rw [this, Bool.and_false]

/-- C8 (amended: restricted to input pairs that are not both empty — on the
empty/empty pair the builder short-circuits to the fixed no-data message,
which contains no data-status section even though all four expected
instruments are missing): the report decomposes around `data_status_section`;
that section is empty exactly when no expected instrument is missing from
either map; the missing lists name exactly the missing instruments; and a
non-empty section renders exactly those lists. -/
theorem data_status_report (t : List (String × TodayOpenRecord))
    (y : List (String × YesterdayOhlcRecord)) (n : String) (h : t ≠ [] ∨ y ≠ []) :
    (∃ pre, format_simplified_message t y n =
      pre ++ data_status_section t y ++ "\nğŸ“± *Stock Bot by Omkar*") ∧
    (data_status_section t y = "" ↔
      ∀ name ∈ all_expected_indices, hasKey t name = true ∧ hasKey y name = true) ∧
    (∀ name, name ∈ missing_today_of t ↔
      name ∈ all_expected_indices ∧ hasKey t name = false) ∧
    (∀ name, name ∈ missing_yesterday_of y ↔
      name ∈ all_expected_indices ∧ hasKey y name = false) ∧
    (data_status_section t y ≠ "" →
      data_status_section t y =
        data_status_header ++
        (if (missing_today_of t).isEmpty then ""
         else "Missing today's data: " ++
           String.intercalate ", " (missing_today_of t) ++ "\n") ++
        (if (missing_yesterday_of y).isEmpty then ""
         else "Missing yesterday's data: " ++
           String.intercalate ", " (missing_yesterday_of y) ++ "\n")) := by
  have hb := maps_nonempty_cond t y h
  refine ⟨?_, ?_, ?_, ?_, ?_⟩
  · refine ⟨"ğŸ‘‹ Hi Omkar!\n\nğŸ“Š *Simplified Stock Report*\n" ++
      "ğŸ•˜ Retrieved: " ++ n ++ "\n\n" ++
      "ğŸŒ… *Today's Opening (" ++ today_date_of t ++ ")*\n" ++ rule_line ++
      String.join (t.map fun p => today_line p.1 p.2) ++
      "\nğŸ“Š *Yesterday's OHLC (" ++ yesterday_date_of y ++ ")*\n" ++ rule_line ++
      String.join (y.map fun p => yesterday_block p.1 p.2), ?_⟩
    simp [format_simplified_message, hb]
  · constructor
    · intro hempty
      by_cases hc : ((missing_today_of t).isEmpty && (missing_yesterday_of y).isEmpty) = true
      · rw [Bool.and_eq_true, List.isEmpty_iff, List.isEmpty_iff] at hc
        intro name hn
        exact ⟨(missing_today_nil_iff t).mp hc.1 name hn,
               (missing_yesterday_nil_iff y).mp hc.2 name hn⟩
      · exfalso
        rw [data_status_section] at hempty
        rw [if_neg hc] at hempty
        have h1 := congrArg String.length hempty
        rw [String.length_append, String.length_append] at h1
        have h2 : (0 : ℕ) < data_status_header.length := by decide
        have h0 : ("" : String).length = 0 := rfl
        rw [h0] at h1
        omega
    · intro hall
      have hmt : missing_today_of t = [] :=
        (missing_today_nil_iff t).mpr fun name hn => (hall name hn).1
      have hmy : missing_yesterday_of y = [] :=
        (missing_yesterday_nil_iff y).mpr fun name hn => (hall name hn).2
      simp [data_status_section, hmt, hmy]
  · intro name
    simp [missing_today_of, List.mem_filter]
  · intro name
    simp [missing_yesterday_of, List.mem_filter]
  · intro hne
    by_cases hc : ((missing_today_of t).isEmpty && (missing_yesterday_of y).isEmpty) = true
    · exact absurd (by simp [data_status_section, hc]) hne
    · simp [data_status_section, hc]

/-- Witness for C8 at a non-empty today map and an empty yesterday map. -/
theorem data_status_report_witness :
    ∃ pre, format_simplified_message [("NIFTY 50", tdemoRec)] [] "t0" =
      pre ++ data_status_section [("NIFTY 50", tdemoRec)] [] ++
        "\nğŸ“± *Stock Bot by Omkar*" :=
  (data_status_report [("NIFTY 50", tdemoRec)] [] "t0" (Or.inl (by simp))).1

/-- Counterexample for C8 as stated: with both input maps empty the builder
returns the fixed no-data message; every expected instrument is missing, yet
the rendered text contains no data-status section. -/
theorem data_status_cex :
    format_simplified_message [] [] "t0" = "âŒ Unable to fetch stock data at this time." ∧
    hasKey ([] : List (String × TodayOpenRecord)) "NIFTY 50" = false ∧
    "NIFTY 50" ∈ all_expected_indices ∧
    subMatch ("Data Status".data) ((format_simplified_message [] [] "t0").data) = false := by
  refine ⟨rfl, rfl, by decide, by decide⟩

/-- C9 (amended: when a record set is empty its header shows the *empty
string* inside the parentheses, not a generic 'Today'/'Yesterday' label — the
`'Today'`/`'Yesterday'` defaults at source lines 192/194 are unreachable since
every record carries a date): each section header displays the date of the
first record of the corresponding non-empty record set. -/
theorem header_dates (t : List (String × TodayOpenRecord))
    (y : List (String × YesterdayOhlcRecord)) (n : String) (h : t ≠ [] ∨ y ≠ []) :
    (∃ rest, format_simplified_message t y n =
      "ğŸ‘‹ Hi Omkar!\n\nğŸ“Š *Simplified Stock Report*\n" ++ "ğŸ•˜ Retrieved: " ++ n ++
        "\n\n" ++ "ğŸŒ… *Today's Opening (" ++ today_date_of t ++ ")*\n" ++ rest) ∧
    (∃ pre rest, format_simplified_message t y n =
      pre ++ "\nğŸ“Š *Yesterday's OHLC (" ++ yesterday_date_of y ++ ")*\n" ++ rest) ∧
    (∀ k r l, t = (k, r) :: l → today_date_of t = r.date) ∧
    (t = [] → today_date_of t = "") ∧
    (∀ k r l, y = (k, r) :: l → yesterday_date_of y = r.date) ∧
    (y = [] → yesterday_date_of y = "") := by
  have hb := maps_nonempty_cond t y h
  refine ⟨?_, ?_, ?_, ?_, ?_, ?_⟩
  · refine ⟨rule_line ++ String.join (t.map fun p => today_line p.1 p.2) ++
      "\nğŸ“Š *Yesterday's OHLC (" ++ yesterday_date_of y ++ ")*\n" ++ rule_line ++
      String.join (y.map fun p => yesterday_block p.1 p.2) ++
      data_status_section t y ++ "\nğŸ“± *Stock Bot by Omkar*", ?_⟩
    simp [format_simplified_message, hb, String.append_assoc]
  · refine ⟨"ğŸ‘‹ Hi Omkar!\n\nğŸ“Š *Simplified Stock Report*\n" ++
      "ğŸ•˜ Retrieved: " ++ n ++ "\n\n" ++
      "ğŸŒ… *Today's Opening (" ++ today_date_of t ++ ")*\n" ++ rule_line ++
      String.join (t.map fun p => today_line p.1 p.2),
      rule_line ++ String.join (y.map fun p => yesterday_block p.1 p.2) ++
      data_status_section t y ++ "\nğŸ“± *Stock Bot by Omkar*", ?_⟩
    simp [format_simplified_message, hb, String.append_assoc]
  · intro k r l heq
    rw [heq]
    rfl
  · intro heq
    rw [heq]
    rfl
  · intro k r l heq
    rw [heq]
    rfl
  · intro heq
    rw [heq]
    rfl

/-- Witness for C9 at non-empty maps: the today header displays the first
today record's date. -/
theorem header_dates_witness :
    ∃ rest, format_simplified_message [("NIFTY 50", tdemoRec)]
        [("NIFTY BANK", ydemoRec)] "t0" =
      "ğŸ‘‹ Hi Omkar!\n\nğŸ“Š *Simplified Stock Report*\n" ++ "ğŸ•˜ Retrieved: " ++ "t0" ++
        "\n\n" ++ "ğŸŒ… *Today's Opening (" ++
        today_date_of [("NIFTY 50", tdemoRec)] ++ ")*\n" ++ rest :=
  (header_dates [("NIFTY 50", tdemoRec)] [("NIFTY BANK", ydemoRec)] "t0"
    (Or.inl (by simp))).1

set_option maxRecDepth 8000 in
/-- Counterexample for C9 as stated: with an empty today map (and a non-empty
yesterday map) the rendered report shows `Today's Opening ()` — an empty date
slot — and contains neither a `(Today)` nor a `(Yesterday)` generic label. -/
theorem header_dates_cex :
    today_date_of ([] : List (String × TodayOpenRecord)) = "" ∧
    subMatch ("*Today's Opening ()*".data)
      ((format_simplified_message [] [("NIFTY BANK", ydemoRec)] "t0").data) = true ∧
    subMatch ("(Today)".data)
      ((format_simplified_message [] [("NIFTY BANK", ydemoRec)] "t0").data) = false ∧
    subMatch ("(Yesterday)".data)
      ((format_simplified_message [] [("NIFTY BANK", ydemoRec)] "t0").data) = false := by
  refine ⟨rfl, by decide, by decide, by decide⟩
